import Mathlib

/-!
Verification of the arena motion logic of the bevy-showcase examples.

The embedded functions are translated from the repository's source:
* `wrapAxis` / `wrap` — the screen-edge wrap-around of `position_system`
  (src/examples/ncollide2d.rs lines 66-75, corner-origin bounds, and
  src/examples/spaceship_01.rs lines 107-120, center-origin bounds; both
  share the same per-axis structure, parametrised here by the bounds).
* `reflect` — src/examples/ncollide2d.rs lines 153-155.
* `resolve_contact` — the per-contact effect of `collision_system`
  (src/examples/ncollide2d.rs lines 97-110): both bodies' velocities are
  reflected around the contact normal, and the second body's position is
  translated by `normal * depth`.
* `resolve_tick` — the contact loop of `collision_system` specialised to a
  fixed pair of bodies: contacts are processed in order, each applied
  unconditionally.

f32 arithmetic is modelled by exact rationals.
-/

/-- A 2D vector with rational components, modelling `Vector2<f32>`. -/
structure Vec2 where
  x : ℚ
  y : ℚ
deriving DecidableEq, Repr

def Vec2.add (a b : Vec2) : Vec2 := ⟨a.x + b.x, a.y + b.y⟩

def Vec2.sub (a b : Vec2) : Vec2 := ⟨a.x - b.x, a.y - b.y⟩

def Vec2.smul (c : ℚ) (a : Vec2) : Vec2 := ⟨c * a.x, c * a.y⟩

def Vec2.dot (a b : Vec2) : ℚ := a.x * b.x + a.y * b.y

/-- `WINDOW_WIDTH` from src/examples/ncollide2d.rs line 17. -/
def WINDOW_WIDTH : ℚ := 1280

/-- `WINDOW_HEIGHT` from src/examples/ncollide2d.rs line 18. -/
def WINDOW_HEIGHT : ℚ := 800

/-- One axis of the screen-edge wrap of `position_system`
(src/examples/ncollide2d.rs lines 66-75 with `low = 0`, `high = WINDOW_WIDTH`
resp. `WINDOW_HEIGHT`; src/examples/spaceship_01.rs lines 107-120 with
`low = -half_width`, `high = half_width` resp. the height pair):
if the position is strictly below `low` and the velocity is strictly
negative, snap to `high`; else if strictly above `high` with strictly
positive velocity, snap to `low`; otherwise leave the position unchanged. -/
def wrapAxis (low high p v : ℚ) : ℚ :=
  if p < low ∧ v < 0 then high
  else if p > high ∧ v > 0 then low
  else p

/-- The two-axis wrap of `position_system`, parametrised by the per-axis
bounds as the two examples instantiate them. -/
def wrap (lowx highx lowy highy : ℚ) (p v : Vec2) : Vec2 :=
  ⟨wrapAxis lowx highx p.x v.x, wrapAxis lowy highy p.y v.y⟩

/-- The concrete wrap of src/examples/ncollide2d.rs: bounds
`[0, WINDOW_WIDTH] × [0, WINDOW_HEIGHT]`. -/
def wrapArena (p v : Vec2) : Vec2 :=
  wrap 0 WINDOW_WIDTH 0 WINDOW_HEIGHT p v

/-- `reflect` from src/examples/ncollide2d.rs lines 153-155:
`d - 2.0 * n * (d.dot(&n))`. -/
def reflect (d n : Vec2) : Vec2 :=
  d.sub (Vec2.smul (2 * d.dot n) n)

/-- A simulated body: position and velocity (spec data model; `Transform`
translation plus `Velocity` component in the source). -/
structure Body where
  position : Vec2
  velocity : Vec2
deriving DecidableEq, Repr

/-- A contact event: unit normal and penetration depth as supplied by the
external detector (`contact.normal`, `contact.depth` in
src/examples/ncollide2d.rs lines 93-94). -/
structure Contact where
  normal : Vec2
  depth : ℚ
deriving DecidableEq, Repr

/-- The effect of one iteration of the contact loop of `collision_system`
(src/examples/ncollide2d.rs lines 97-110) on the contact's pair of bodies:
both velocities are reflected around the contact normal (lines 98-102), and
the second body's position is translated by `normal * depth`
(lines 104-110); the first body's position is untouched. -/
def resolve_contact (c : Contact) (a b : Body) : Body × Body :=
  (⟨a.position, reflect a.velocity c.normal⟩,
   ⟨b.position.add (Vec2.smul c.depth c.normal), reflect b.velocity c.normal⟩)

/-- The contact loop of `collision_system` (src/examples/ncollide2d.rs
lines 91-112) specialised to a fixed pair of bodies: contacts are applied
in order, each unconditionally. -/
def resolve_tick (contacts : List Contact) (a b : Body) : Body × Body :=
  contacts.foldl (fun ab c => resolve_contact c ab.1 ab.2) (a, b)

/-! ### Helper lemmas -/

/-- A position exactly at the lower bound is a fixed point of `wrapAxis`. -/
theorem wrapAxis_at_low (low high v : ℚ) : wrapAxis low high low v = low := by
  unfold wrapAxis
  split_ifs with h1 h2
  · exact absurd h1.1 (lt_irrefl _)
  · rfl
  · rfl

/-- A position exactly at the upper bound is a fixed point of `wrapAxis`. -/
theorem wrapAxis_at_high (low high v : ℚ) : wrapAxis low high high v = high := by
  unfold wrapAxis
  split_ifs with h1 h2
  · rfl
  · exact absurd h2.1 (lt_irrefl _)
  · rfl

/-- A position strictly inside the bounds is a fixed point of `wrapAxis`. -/
theorem wrapAxis_interior (low high p v : ℚ) (h1 : low < p) (h2 : p < high) :
    wrapAxis low high p v = p := by
  have c1 : ¬(p < low ∧ v < 0) := by rintro ⟨h, _⟩; linarith
  have c2 : ¬(p > high ∧ v > 0) := by rintro ⟨h, _⟩; linarith
  simp [wrapAxis, c1, c2]

/-- Applying `wrapAxis` twice with the same velocity changes nothing the
second time. -/
theorem wrapAxis_idem (low high p v : ℚ) :
    wrapAxis low high (wrapAxis low high p v) v = wrapAxis low high p v := by
  by_cases h1 : p < low ∧ v < 0
  · rw [show wrapAxis low high p v = high by simp [wrapAxis, h1]]
    exact wrapAxis_at_high low high v
  · by_cases h2 : p > high ∧ v > 0
    · rw [show wrapAxis low high p v = low by simp [wrapAxis, h1, h2]]
      exact wrapAxis_at_low low high v
    · rw [show wrapAxis low high p v = p by simp [wrapAxis, h1, h2]]
      simp [wrapAxis, h1, h2]

/-! ### Claim theorems -/

/-- Claim C1: for every position, velocity and bounds, the wrap acts per
axis: strictly below the lower bound with negative velocity snaps to the
upper bound; strictly above the upper bound with positive velocity snaps to
the lower bound; otherwise the axis is unchanged. Concretely, on the arena
`[0,1280] x [0,800]`, wrapping position `(1281, 400)` with velocity
`(50, 0)` yields `(0, 400)`. -/
theorem wrap_per_axis_rule (low high p v : ℚ) :
    (p < low → v < 0 → wrapAxis low high p v = high) ∧
    (p > high → v > 0 → wrapAxis low high p v = low) ∧
    (¬(p < low ∧ v < 0) → ¬(p > high ∧ v > 0) → wrapAxis low high p v = p) ∧
    wrapArena ⟨1281, 400⟩ ⟨50, 0⟩ = ⟨0, 400⟩ := by
  refine ⟨?_, ?_, ?_, ?_⟩
  · intro h1 h2
    simp [wrapAxis, h1, h2]
  · intro h1 h2
    have c1 : ¬(p < low ∧ v < 0) := by rintro ⟨_, hv⟩; linarith
    simp [wrapAxis, c1, h1, h2]
  · intro h1 h2
    simp [wrapAxis, h1, h2]
  · norm_num [wrapArena, wrap, wrapAxis, WINDOW_WIDTH, WINDOW_HEIGHT]

/-- Claim C1 witness: the rule applied at the concrete input from the
spec's end-to-end scenario. -/
theorem wrap_per_axis_rule_witness :
    wrapAxis 0 1280 1281 50 = 0 :=
  (wrap_per_axis_rule 0 1280 1281 50).2.1 (by norm_num) (by norm_num)

/-- Claim C2 counterexample: a position exactly at the lower bound with
strictly negative velocity on that axis is NOT sent to the upper bound by
the wrap of src/examples/ncollide2d.rs — the comparison `x < 0.0` is
strict, so the boundary point is left unchanged. -/
theorem wrap_boundary_counterexample :
    wrapArena ⟨0, 400⟩ ⟨-1, 0⟩ = ⟨0, 400⟩ ∧
    wrapArena ⟨0, 400⟩ ⟨-1, 0⟩ ≠ ⟨1280, 400⟩ := by
  constructor
  · norm_num [wrapArena, wrap, wrapAxis, WINDOW_WIDTH, WINDOW_HEIGHT]
  · norm_num [wrapArena, wrap, wrapAxis, WINDOW_WIDTH, WINDOW_HEIGHT, Vec2.mk.injEq]

/-- Claim C2 amended: a position exactly at the lower bound on an axis is
left unchanged on that axis by the wrap, regardless of velocity, and
likewise a position exactly at the upper bound; only positions strictly
outside the bounds are snapped. -/
theorem wrap_fixed_at_bounds (low high v : ℚ) :
    wrapAxis low high low v = low ∧ wrapAxis low high high v = high :=
  ⟨wrapAxis_at_low low high v, wrapAxis_at_high low high v⟩

/-- Claim C6: for any position strictly inside the arena bounds on both
axes, the wrap returns the position unchanged, regardless of velocity. -/
theorem wrap_interior_identity (lowx highx lowy highy : ℚ) (p v : Vec2)
    (hx1 : lowx < p.x) (hx2 : p.x < highx)
    (hy1 : lowy < p.y) (hy2 : p.y < highy) :
    wrap lowx highx lowy highy p v = p := by
  obtain ⟨px, py⟩ := p
  simp only [wrap] at *
  rw [wrapAxis_interior _ _ _ _ hx1 hx2, wrapAxis_interior _ _ _ _ hy1 hy2]

/-- Claim C6 witness: a concrete interior point of the `[0,1280] x [0,800]`
arena is unchanged even with a large velocity. -/
theorem wrap_interior_identity_witness :
    wrap 0 1280 0 800 ⟨1, 1⟩ ⟨-99, 99⟩ = ⟨1, 1⟩ :=
  wrap_interior_identity 0 1280 0 800 ⟨1, 1⟩ ⟨-99, 99⟩
    (by norm_num) (by norm_num) (by norm_num) (by norm_num)

/-- Claim C7: the wrap does not oscillate — applying it a second time with
the same velocity leaves the result of the first wrap unchanged, for every
position, velocity and bounds. -/
theorem wrap_idempotent (lowx highx lowy highy : ℚ) (p v : Vec2) :
    wrap lowx highx lowy highy (wrap lowx highx lowy highy p v) v =
      wrap lowx highx lowy highy p v := by
  simp only [wrap, wrapAxis_idem]

/-- Claim C10: the wrap does not guarantee an in-bounds output — a position
strictly outside a bound on an axis whose velocity component is zero or
points back toward the interior keeps that coordinate; concretely, on the
`[0,1280] x [0,800]` arena, position `(1281, 400)` with zero velocity is
returned unchanged, still outside the arena. -/
theorem wrap_can_leave_outside (low high p v : ℚ) (hb : low ≤ high) :
    (p < low → 0 ≤ v → wrapAxis low high p v = p) ∧
    (high < p → v ≤ 0 → wrapAxis low high p v = p) ∧
    (wrapArena ⟨1281, 400⟩ ⟨0, 0⟩ = ⟨1281, 400⟩ ∧ WINDOW_WIDTH < 1281) := by
  refine ⟨?_, ?_, ?_, ?_⟩
  · intro h1 h2
    have c1 : ¬(p < low ∧ v < 0) := by rintro ⟨_, hv⟩; linarith
    have c2 : ¬(p > high ∧ v > 0) := by rintro ⟨hp, _⟩; linarith
    simp [wrapAxis, c1, c2]
  · intro h1 h2
    have c1 : ¬(p < low ∧ v < 0) := by rintro ⟨hp, _⟩; linarith
    have c2 : ¬(p > high ∧ v > 0) := by rintro ⟨_, hv⟩; linarith
    simp [wrapAxis, c1, c2]
  · norm_num [wrapArena, wrap, wrapAxis, WINDOW_WIDTH, WINDOW_HEIGHT]
  · norm_num [WINDOW_WIDTH]

/-- Claim C10 witness: the rule applied at a concrete out-of-bounds input
with zero velocity. -/
theorem wrap_can_leave_outside_witness :
    wrapAxis 0 1280 1281 0 = 1281 :=
  (wrap_can_leave_outside 0 1280 1281 0 (by norm_num)).2.1 (by norm_num) (by norm_num)

/-- Claim C3: `resolve_contact` updates both bodies' velocities
independently by the same mirror-reflection formula
`v - 2 * n * dot(v, n)`; concretely, velocities `(10,0)` and `(-10,0)`
reflected around normal `(1,0)` become `(-10,0)` and `(10,0)`. -/
theorem resolve_contact_reflects (c : Contact) (a b : Body) :
    (resolve_contact c a b).1.velocity =
        a.velocity.sub (Vec2.smul (2 * a.velocity.dot c.normal) c.normal) ∧
    (resolve_contact c a b).2.velocity =
        b.velocity.sub (Vec2.smul (2 * b.velocity.dot c.normal) c.normal) ∧
    (resolve_contact ⟨⟨1, 0⟩, 1/2⟩ ⟨⟨0, 0⟩, ⟨10, 0⟩⟩ ⟨⟨1, 0⟩, ⟨-10, 0⟩⟩).1.velocity
        = ⟨-10, 0⟩ ∧
    (resolve_contact ⟨⟨1, 0⟩, 1/2⟩ ⟨⟨0, 0⟩, ⟨10, 0⟩⟩ ⟨⟨1, 0⟩, ⟨-10, 0⟩⟩).2.velocity
        = ⟨10, 0⟩ := by
  refine ⟨rfl, rfl, ?_, ?_⟩ <;>
    norm_num [resolve_contact, reflect, Vec2.sub, Vec2.smul, Vec2.dot]

/-- Claim C4: for a contact with unit normal and nonnegative depth,
`resolve_contact` changes only the second body's position, and the change
is exactly `normal * depth`; the first body's position is unchanged. -/
theorem resolve_contact_depenetration (c : Contact) (a b : Body)
    (hn : c.normal.dot c.normal = 1) (hd : 0 ≤ c.depth) :
    ((resolve_contact c a b).2.position).sub b.position =
        Vec2.smul c.depth c.normal ∧
    (resolve_contact c a b).1.position = a.position := by
  refine ⟨?_, rfl⟩
  simp only [resolve_contact, Vec2.add, Vec2.sub, Vec2.smul, Vec2.mk.injEq]
  constructor <;> ring

/-- Claim C4 witness: the spec's end-to-end contact, normal `(1,0)` with
depth `1/2`, shifts the second body by exactly `(1/2, 0)` and leaves the
first body's position unchanged. -/
theorem resolve_contact_depenetration_witness :
    ((resolve_contact ⟨⟨1, 0⟩, 1/2⟩ ⟨⟨0, 0⟩, ⟨10, 0⟩⟩
        ⟨⟨1, 0⟩, ⟨-10, 0⟩⟩).2.position).sub ⟨1, 0⟩ = Vec2.smul (1/2) ⟨1, 0⟩ ∧
    (resolve_contact ⟨⟨1, 0⟩, 1/2⟩ ⟨⟨0, 0⟩, ⟨10, 0⟩⟩
        ⟨⟨1, 0⟩, ⟨-10, 0⟩⟩).1.position = ⟨0, 0⟩ :=
  resolve_contact_depenetration ⟨⟨1, 0⟩, 1/2⟩ ⟨⟨0, 0⟩, ⟨10, 0⟩⟩
    ⟨⟨1, 0⟩, ⟨-10, 0⟩⟩ (by norm_num [Vec2.dot]) (by norm_num)

/-- Claim C5 counterexample: a malformed contact — normal `(2,0)` is not a
unit vector and the depth `-1` is negative — is NOT discarded by
`collision_system`: it changes the first body's velocity and the second
body's position exactly as a well-formed contact would. -/
theorem malformed_contact_counterexample :
    Vec2.dot ⟨2, 0⟩ ⟨2, 0⟩ ≠ 1 ∧ (-1 : ℚ) < 0 ∧
    (resolve_contact ⟨⟨2, 0⟩, -1⟩ ⟨⟨0, 0⟩, ⟨10, 0⟩⟩
        ⟨⟨1, 0⟩, ⟨-10, 0⟩⟩).1.velocity ≠ ⟨10, 0⟩ ∧
    (resolve_contact ⟨⟨2, 0⟩, -1⟩ ⟨⟨0, 0⟩, ⟨10, 0⟩⟩
        ⟨⟨1, 0⟩, ⟨-10, 0⟩⟩).2.position ≠ ⟨1, 0⟩ := by
  refine ⟨by norm_num [Vec2.dot], by norm_num, ?_, ?_⟩ <;>
    norm_num [resolve_contact, reflect, Vec2.add, Vec2.sub, Vec2.smul,
      Vec2.dot, Vec2.mk.injEq]

/-- Claim C5 amended: `collision_system` performs no validation — a contact
whose normal is not a unit vector or whose depth is negative is applied
exactly like any other contact (both velocities reflected around the
stored normal, second body translated by `normal * depth`), and processing
of the remaining contacts of the tick continues; the arithmetic is total,
so no step aborts, but nothing is discarded and no warning is reported. -/
theorem malformed_contact_applied (c : Contact) (a b : Body)
    (rest : List Contact)
    (h : c.normal.dot c.normal ≠ 1 ∨ c.depth < 0) :
    resolve_contact c a b =
      (⟨a.position, reflect a.velocity c.normal⟩,
       ⟨b.position.add (Vec2.smul c.depth c.normal),
        reflect b.velocity c.normal⟩) ∧
    resolve_tick (c :: rest) a b =
      resolve_tick rest (resolve_contact c a b).1 (resolve_contact c a b).2 :=
  ⟨rfl, rfl⟩

/-- Claim C5 amended witness: the malformed contact of the counterexample
is applied unconditionally and the tick continues with the rest. -/
theorem malformed_contact_applied_witness :
    resolve_contact ⟨⟨2, 0⟩, -1⟩ ⟨⟨0, 0⟩, ⟨10, 0⟩⟩ ⟨⟨1, 0⟩, ⟨-10, 0⟩⟩ =
      (⟨⟨0, 0⟩, reflect ⟨10, 0⟩ ⟨2, 0⟩⟩,
       ⟨Vec2.add ⟨1, 0⟩ (Vec2.smul (-1) ⟨2, 0⟩), reflect ⟨-10, 0⟩ ⟨2, 0⟩⟩) ∧
    resolve_tick [⟨⟨2, 0⟩, -1⟩] ⟨⟨0, 0⟩, ⟨10, 0⟩⟩ ⟨⟨1, 0⟩, ⟨-10, 0⟩⟩ =
      resolve_tick []
        (resolve_contact ⟨⟨2, 0⟩, -1⟩ ⟨⟨0, 0⟩, ⟨10, 0⟩⟩ ⟨⟨1, 0⟩, ⟨-10, 0⟩⟩).1
        (resolve_contact ⟨⟨2, 0⟩, -1⟩ ⟨⟨0, 0⟩, ⟨10, 0⟩⟩ ⟨⟨1, 0⟩, ⟨-10, 0⟩⟩).2 :=
  malformed_contact_applied ⟨⟨2, 0⟩, -1⟩ ⟨⟨0, 0⟩, ⟨10, 0⟩⟩ ⟨⟨1, 0⟩, ⟨-10, 0⟩⟩
    [] (Or.inl (by norm_num [Vec2.dot]))

/-- Claim C8: for every velocity `v` and every unit normal `n`, the
magnitude of `reflect v n` equals the magnitude of `v`. -/
theorem reflect_preserves_magnitude (v n : Vec2) (hn : n.dot n = 1) :
    Real.sqrt (((reflect v n).dot (reflect v n) : ℚ) : ℝ) =
      Real.sqrt ((v.dot v : ℚ) : ℝ) := by
  have key : (reflect v n).dot (reflect v n) = v.dot v := by
    simp only [reflect, Vec2.sub, Vec2.smul, Vec2.dot] at hn ⊢
    linear_combination (4 * (v.x * n.x + v.y * n.y) ^ 2) * hn
  rw [key]

/-- Claim C8 witness: reflecting `(3,4)` around the unit normal `(0,1)`
preserves its magnitude. -/
theorem reflect_preserves_magnitude_witness :
    Real.sqrt (((reflect ⟨3, 4⟩ ⟨0, 1⟩).dot (reflect ⟨3, 4⟩ ⟨0, 1⟩) : ℚ) : ℝ) =
      Real.sqrt ((Vec2.dot ⟨3, 4⟩ ⟨3, 4⟩ : ℚ) : ℝ) :=
  reflect_preserves_magnitude ⟨3, 4⟩ ⟨0, 1⟩ (by norm_num [Vec2.dot])

/-- Claim C9: for every velocity `v` and every unit normal `n`,
reflecting twice around the same normal returns the original vector. -/
theorem reflect_involution (v n : Vec2) (hn : n.dot n = 1) :
    reflect (reflect v n) n = v := by
  obtain ⟨vx, vy⟩ := v
  simp only [Vec2.dot] at hn
  simp only [reflect, Vec2.sub, Vec2.smul, Vec2.dot, Vec2.mk.injEq]
  constructor
  · linear_combination (4 * (vx * n.x + vy * n.y) * n.x) * hn
  · linear_combination (4 * (vx * n.x + vy * n.y) * n.y) * hn

/-- Claim C9 witness: reflecting `(3,4)` twice around the unit normal
`(1,0)` returns `(3,4)`. -/
theorem reflect_involution_witness :
    reflect (reflect ⟨3, 4⟩ ⟨1, 0⟩) ⟨1, 0⟩ = ⟨3, 4⟩ :=
  reflect_involution ⟨3, 4⟩ ⟨1, 0⟩ (by norm_num [Vec2.dot])
